import Mathlib

/-!
Shallow embedding of the tpg26x driver (src/tpg26x/tpg26x.py), a
request/response driver for a Pfeiffer TPG 26x vacuum-gauge controller
over a serial link.

Modelling conventions:
* Python byte strings are modelled as `List Nat` (one entry per byte).
* Python floats are modelled as rationals (`ℚ`); the numeric content of
  the pressure parser (mantissa times a power of ten) is exact decimal
  arithmetic, so rationals represent it faithfully.
* Python exceptions are modelled with an explicit error type `Err`;
  functions that can raise return `Except Err _` or an outcome type that
  also carries the serial-port state.
* The serial port is modelled as a state `SerialState`: the chronological
  list of writes performed so far, and the script of incoming raw lines
  that `Serial.readline` will deliver.
-/

/-- Byte-string literal helper: the ASCII bytes of a string. -/
def bstr (s : String) : List Nat := s.toList.map Char.toNat

/-- Errors raised by the driver.  The Python source raises `ValueError`
(tuple-unpacking of a split with the wrong field count, or failed
numeric conversion), and `IOError` with various messages; `attributeError`
models Python raising `AttributeError` when a method that the class does
not define is called. -/
inductive Err
  | valueError
  | unrecognizableData (raw : List Nat)
  | forbidden (mnemonic : List Nat)
  | unexpectedData (raw : List Nat)
  | cannotTurnOnOff (s1 s2 : List Nat)
  | channelNotChanged
  | unexpectedBinary (raw : List Nat)
  | attributeError (name : String)
  | noData
deriving DecidableEq

/-- Embedding of Python `data.split(sep)` for a single separator byte:
splits into the maximal runs between separators, keeping empty fields
(`b"".split(b",") == [b""]`, `b",".split(b",") == [b"", b""]`). -/
def splitOnByte (sep : Nat) : List Nat → List (List Nat)
  | [] => [[]]
  | b :: rest =>
    let r := splitOnByte sep rest
    if b = sep then [] :: r
    else
      match r with
      | [] => [[b]]
      | h :: t => (b :: h) :: t

/-- Embedding of Python `b",".join(parts)`: parts joined by single commas
(byte 44), no trailing comma, a single part kept as is. -/
def joinComma : List (List Nat) → List Nat
  | [] => []
  | [x] => x
  | x :: y :: rest => x ++ 44 :: joinComma (y :: rest)

/-- Is a byte an ASCII decimal digit? -/
def isDigitByte (b : Nat) : Bool := 48 ≤ b && b ≤ 57

/-- Value of a run of ASCII digit bytes read left to right. -/
def digitsToNat (l : List Nat) : Nat := l.foldl (fun acc b => acc * 10 + (b - 48)) 0

/-- Embedding of Python `int(b)` restricted to its plain decimal forms:
an optional sign byte followed by a nonempty run of digits.  (`int` also
tolerates surrounding whitespace and underscore digit grouping; the
driver never receives such replies and the spec does not mention them.) -/
def parse_int (s : List Nat) : Option Int :=
  match s with
  | 45 :: rest =>
    if rest ≠ [] && rest.all isDigitByte then some (-(digitsToNat rest : Int)) else none
  | 43 :: rest =>
    if rest ≠ [] && rest.all isDigitByte then some (digitsToNat rest : Int) else none
  | _ =>
    if s ≠ [] && s.all isDigitByte then some (digitsToNat s : Int) else none

/-- Unsigned part of Python `float(b)` restricted to plain decimal
notation: digits, optionally split by one dot, at least one digit in
total (`"1."`, `".5"`, `"1.5"`, `"1"` are all accepted, `"."` and `""`
are not). -/
def parse_float_unsigned (s : List Nat) : Option ℚ :=
  match splitOnByte 46 s with
  | [ip] =>
    if ip ≠ [] && ip.all isDigitByte then some (digitsToNat ip : ℚ) else none
  | [ip, fp] =>
    if (ip ++ fp) ≠ [] && ip.all isDigitByte && fp.all isDigitByte then
      some ((digitsToNat ip : ℚ) + (digitsToNat fp : ℚ) / (10 : ℚ) ^ fp.length)
    else none
  | _ => none

/-- Embedding of Python `float(b)` restricted to plain signed decimal
notation (the forms the device protocol uses). -/
def parse_float (s : List Nat) : Option ℚ :=
  match s with
  | 45 :: rest => (parse_float_unsigned rest).map (fun q => -q)
  | 43 :: rest => parse_float_unsigned rest
  | _ => parse_float_unsigned s

/-- Python `10 ** e` for an integer exponent, as an exact rational. -/
def pow10 (e : Int) : ℚ :=
  if 0 ≤ e then ((10 ^ e.toNat : Nat) : ℚ) else 1 / ((10 ^ (-e).toNat : Nat) : ℚ)

/-- Embedding of `Tpg26x._parse_pressure`: split the raw bytes on the
single byte `E` (69) into mantissa and exponent — the tuple unpacking
raises `ValueError` unless the split yields exactly two parts — then
`float` the mantissa, `int` the exponent, and return
`mantissa * 10 ** exponent`. -/
def parse_pressure (raw : List Nat) : Except Err ℚ :=
  match splitOnByte 69 raw with
  | [m, e] =>
    match parse_float m, parse_int e with
    | some mq, some ei => Except.ok (mq * pow10 ei)
    | _, _ => Except.error Err.valueError
  | _ => Except.error Err.valueError

/-- The `MeasurementStatus` integer enum of the source. -/
inductive MeasurementStatus
  | OK
  | UNDERRANGE
  | OVERRANGE
  | SENSOR_ERROR
  | SENSOR_OFF
  | NO_SENSOR
  | IDENTIFICATION_ERROR
deriving DecidableEq

/-- Integer value of each `MeasurementStatus` member. -/
def MeasurementStatus.value : MeasurementStatus → Int
  | .OK => 0
  | .UNDERRANGE => 1
  | .OVERRANGE => 2
  | .SENSOR_ERROR => 3
  | .SENSOR_OFF => 4
  | .NO_SENSOR => 5
  | .IDENTIFICATION_ERROR => 6

/-- Members of `MeasurementStatus` in declaration order, as Python
iterates them. -/
def MeasurementStatus.members : List MeasurementStatus :=
  [.OK, .UNDERRANGE, .OVERRANGE, .SENSOR_ERROR, .SENSOR_OFF, .NO_SENSOR,
   .IDENTIFICATION_ERROR]

/-- Embedding of `_search_measurement_status`: linear scan over the enum
members, returning the first whose value equals the argument, else
`none`. -/
def search_measurement_status (value : Int) : Option MeasurementStatus :=
  MeasurementStatus.members.find? (fun status => status.value = value)

/-- Embedding of `Tpg26x._parse_measurement`: split on the comma into
exactly two fields (tuple unpacking raises `ValueError` otherwise),
convert the first to `int` and look it up — the lookup result is
returned as is, `None` included — and parse the second as a pressure. -/
def parse_measurement (raw : List Nat) :
    Except Err (Option MeasurementStatus × ℚ) :=
  match splitOnByte 44 raw with
  | [status, pressure] =>
    match parse_int status with
    | some si => (parse_pressure pressure).map (fun pq => (search_measurement_status si, pq))
    | none => Except.error Err.valueError
  | _ => Except.error Err.valueError

/-- The `GaugeID` enum of the source: the transmitter-identification
catalog.  NOTE: the source declares `class GaugeID(int, enum.Enum)` while
giving every member a bytes value, so constructing the class raises
`ValueError` at import time in CPython; the evident intent (every sibling
catalog subclasses `bytes`) is a bytes-valued catalog, which is what is
modelled here. -/
inductive GaugeID
  | TPR
  | IK9
  | IKR11
  | PKR
  | PBR
  | IMR
  | CMR
  | NO_SENSOR
  | NO_IDENTIFIER
deriving DecidableEq

/-- Wire code of each `GaugeID` member. -/
def GaugeID.value : GaugeID → List Nat
  | .TPR => bstr "TPR"
  | .IK9 => bstr "IK9"
  | .IKR11 => bstr "IKR11"
  | .PKR => bstr "PKR"
  | .PBR => bstr "PBR"
  | .IMR => bstr "IMR"
  | .CMR => bstr "CMR"
  | .NO_SENSOR => bstr "noSEn"
  | .NO_IDENTIFIER => bstr "noid"

/-- Members of `GaugeID` in declaration order. -/
def GaugeID.members : List GaugeID :=
  [.TPR, .IK9, .IKR11, .PKR, .PBR, .IMR, .CMR, .NO_SENSOR, .NO_IDENTIFIER]

/-- Embedding of `_search_gauge_id`: linear scan, `none` when absent. -/
def search_gauge_id (value : List Nat) : Option GaugeID :=
  GaugeID.members.find? (fun gauge_id => gauge_id.value = value)

/-- The `GaugeType` enum of the source: the two measurement channels,
with their wire bytes. -/
inductive GaugeType
  | GAUGE1
  | GAUGE2
deriving DecidableEq

/-- Wire byte of each `GaugeType` member (`b"0"` and `b"1"`). -/
def GaugeType.value : GaugeType → List Nat
  | .GAUGE1 => [48]
  | .GAUGE2 => [49]

/-- The `ErrorStatus` enum of the source.  `NO_ERROR` and `ERROR` are
both declared with value `b"0000"`; under Python enum semantics `ERROR`
is therefore an alias of `NO_ERROR` and is skipped when iterating the
class. -/
inductive ErrorStatus
  | NO_ERROR
  | ERROR
  | NO_HARDWARE
  | INADMISSIBLE_PARAMETER
  | SYNTAX_ERROR
deriving DecidableEq

/-- Wire code of each `ErrorStatus` member. -/
def ErrorStatus.value : ErrorStatus → List Nat
  | .NO_ERROR => bstr "0000"
  | .ERROR => bstr "0000"
  | .NO_HARDWARE => bstr "0100"
  | .INADMISSIBLE_PARAMETER => bstr "0010"
  | .SYNTAX_ERROR => bstr "0001"

/-- The members Python iteration actually yields for `ErrorStatus`:
declaration order with the alias `ERROR` skipped (it duplicates the
value of `NO_ERROR`). -/
def ErrorStatus.members : List ErrorStatus :=
  [.NO_ERROR, .NO_HARDWARE, .INADMISSIBLE_PARAMETER, .SYNTAX_ERROR]

/-- Embedding of `_search_error_status`: linear scan, `none` when
absent. -/
def search_error_status (value : List Nat) : Option ErrorStatus :=
  ErrorStatus.members.find? (fun status => status.value = value)

/-- The `ResetErrorStatus` enum of the source (reset-cause catalog).
Note there is no member with code `b"8"`. -/
inductive ResetErrorStatus
  | NO_ERROR
  | WATCHDOG_RESPONDED
  | TASK_FAILED
  | EPROM_ERROR
  | RAM_ERROR
  | EEPROM_ERROR
  | DISPLAY_ERROR
  | AD_CONVERTER_ERROR
  | GAUGE1_ERROR
  | GAUGE1_IDENTIFICATION_ERROR
  | GAUGE2_ERROR
  | GAUGE2_IDENTIFICATION_ERROR
deriving DecidableEq

/-- Wire code of each `ResetErrorStatus` member. -/
def ResetErrorStatus.value : ResetErrorStatus → List Nat
  | .NO_ERROR => bstr "0"
  | .WATCHDOG_RESPONDED => bstr "1"
  | .TASK_FAILED => bstr "2"
  | .EPROM_ERROR => bstr "3"
  | .RAM_ERROR => bstr "4"
  | .EEPROM_ERROR => bstr "5"
  | .DISPLAY_ERROR => bstr "6"
  | .AD_CONVERTER_ERROR => bstr "7"
  | .GAUGE1_ERROR => bstr "9"
  | .GAUGE1_IDENTIFICATION_ERROR => bstr "10"
  | .GAUGE2_ERROR => bstr "11"
  | .GAUGE2_IDENTIFICATION_ERROR => bstr "12"

/-- Members of `ResetErrorStatus` in declaration order. -/
def ResetErrorStatus.members : List ResetErrorStatus :=
  [.NO_ERROR, .WATCHDOG_RESPONDED, .TASK_FAILED, .EPROM_ERROR, .RAM_ERROR,
   .EEPROM_ERROR, .DISPLAY_ERROR, .AD_CONVERTER_ERROR, .GAUGE1_ERROR,
   .GAUGE1_IDENTIFICATION_ERROR, .GAUGE2_ERROR, .GAUGE2_IDENTIFICATION_ERROR]

/-- Embedding of `_search_reset_error_status`: linear scan; despite its
`-> ResetErrorStatus` annotation the source returns `None` when the
value is absent from the catalog. -/
def search_reset_error_status (value : List Nat) : Option ResetErrorStatus :=
  ResetErrorStatus.members.find? (fun status => status.value = value)

/-- The `Mnemonics` enum of the source: the command catalog. -/
inductive Mnemonics
  | ADC | BAU | COM | CAL | DCD | DGS | DIC | DIS | EEP | EPR
  | ERR | FIL | FSR | IOT | LOC | OFC | OFD | PNR | PR1 | PR2
  | PRX | PUC | RAM | RES | RST | SAV | SC1 | SC2 | SCT | SEN
  | SP1 | SP2 | SP3 | SP4 | SPS | TID | TKB | TLC | UNI | WDT
deriving DecidableEq

/-- Wire bytes of each mnemonic (its own three ASCII letters). -/
def Mnemonics.value : Mnemonics → List Nat
  | .ADC => bstr "ADC"
  | .BAU => bstr "BAU"
  | .COM => bstr "COM"
  | .CAL => bstr "CAL"
  | .DCD => bstr "DCD"
  | .DGS => bstr "DGS"
  | .DIC => bstr "DIC"
  | .DIS => bstr "DIS"
  | .EEP => bstr "EEP"
  | .EPR => bstr "EPR"
  | .ERR => bstr "ERR"
  | .FIL => bstr "FIL"
  | .FSR => bstr "FSR"
  | .IOT => bstr "IOT"
  | .LOC => bstr "LOC"
  | .OFC => bstr "OFC"
  | .OFD => bstr "OFD"
  | .PNR => bstr "PNR"
  | .PR1 => bstr "PR1"
  | .PR2 => bstr "PR2"
  | .PRX => bstr "PRX"
  | .PUC => bstr "PUC"
  | .RAM => bstr "RAM"
  | .RES => bstr "RES"
  | .RST => bstr "RST"
  | .SAV => bstr "SAV"
  | .SC1 => bstr "SC1"
  | .SC2 => bstr "SC2"
  | .SCT => bstr "SCT"
  | .SEN => bstr "SEN"
  | .SP1 => bstr "SP1"
  | .SP2 => bstr "SP2"
  | .SP3 => bstr "SP3"
  | .SP4 => bstr "SP4"
  | .SPS => bstr "SPS"
  | .TID => bstr "TID"
  | .TKB => bstr "TKB"
  | .TLC => bstr "TLC"
  | .UNI => bstr "UNI"
  | .WDT => bstr "WDT"

/-- Protocol control bytes of the source (`Tpg26x` class constants). -/
def CR : Nat := 13

/-- Line feed byte. -/
def LF : Nat := 10

/-- `NEWLINE = CR + LF`. -/
def NEWLINE : List Nat := [CR, LF]

/-- Enquiry byte `0x05`. -/
def ENQ : Nat := 5

/-- Acknowledge byte `0x06`. -/
def ACK : Nat := 6

/-- Negative-acknowledge byte `0x15`. -/
def NACK : Nat := 21

/-- State of the serial transport: the chronological list of writes the
driver has performed, and the script of raw incoming lines that
successive `Serial.readline` calls deliver. -/
structure SerialState where
  written : List (List Nat)
  incoming : List (List Nat)
deriving DecidableEq

/-- `Serial.write`: appends the bytes to the write trace. -/
def serial_write (st : SerialState) (data : List Nat) : SerialState :=
  { written := st.written ++ [data], incoming := st.incoming }

/-- Embedding of `Tpg26x._format`: comma-join the arguments and append
`CR LF`. -/
def format_frame (args : List (List Nat)) : List Nat :=
  joinComma args ++ NEWLINE

/-- Embedding of `Tpg26x._write`: write one formatted frame. -/
def write_frame (st : SerialState) (args : List (List Nat)) : SerialState :=
  serial_write st (format_frame args)

/-- Embedding of `Tpg26x.enquiry`: write the bare enquiry byte, no
terminator. -/
def enquiry (st : SerialState) : SerialState :=
  serial_write st [ENQ]

/-- The terminator check and strip inside `Tpg26x.readline`: if the last
two bytes of the raw line equal `CR LF` return the line without them,
else raise `IOError` carrying the raw bytes.  (Python `data[-2:]` and
`data[:-2]` agree with `List.drop`/`List.take` at `length - 2` under
truncated subtraction.) -/
def decode_line (data : List Nat) : Except Err (List Nat) :=
  if data.drop (data.length - 2) = NEWLINE then Except.ok (data.take (data.length - 2))
  else Except.error (Err.unrecognizableData data)

/-- Outcome of a driver operation: the value or the raised error,
together with the serial state after the side effects performed so
far. -/
inductive R (α : Type)
  | ok (a : α) (st : SerialState)
  | err (e : Err) (st : SerialState)
deriving DecidableEq

/-- Embedding of `Tpg26x.readline`: read the next scripted raw line and
validate/strip its terminator.  An empty script means the Python call
would block forever waiting for the device; `noData` marks that case
(it never occurs in the runs considered here). -/
def readline (st : SerialState) : R (List Nat) :=
  match st.incoming with
  | [] => R.err Err.noData st
  | l :: rest =>
    match decode_line l with
    | Except.ok content => R.ok content { written := st.written, incoming := rest }
    | Except.error e => R.err e { written := st.written, incoming := rest }

/-- Embedding of `Tpg26x._handle_ack`: ACK passes, NACK raises an
`IOError` carrying the mnemonic, anything else raises an `IOError`
carrying the raw bytes. -/
def handle_ack (data : List Nat) (mnemonic : Mnemonics) : Except Err Unit :=
  if data = [ACK] then Except.ok ()
  else if data = [NACK] then Except.error (Err.forbidden mnemonic.value)
  else Except.error (Err.unexpectedData data)

/-- Embedding of `Tpg26x.send_command`: write the formatted frame
(mnemonic first, then the arguments), read one line, and interpret it as
the ACK/NACK handshake. -/
def send_command (st : SerialState) (mnemonic : Mnemonics)
    (args : List (List Nat)) : R Unit :=
  let st := write_frame st (mnemonic.value :: args)
  match readline st with
  | R.err e st => R.err e st
  | R.ok ack st =>
    match handle_ack ack mnemonic with
    | Except.ok _ => R.ok () st
    | Except.error e => R.err e st

/-- Embedding of `Tpg26x._parse_measurements` (the PRX reply): three
comma-separated fields, status then both pressures. -/
def parse_measurements (raw : List Nat) :
    Except Err (Option MeasurementStatus × ℚ × ℚ) :=
  match splitOnByte 44 raw with
  | [status, pressure1, pressure2] =>
    match parse_int status with
    | some si =>
      match parse_pressure pressure1, parse_pressure pressure2 with
      | Except.ok p1, Except.ok p2 =>
        Except.ok (search_measurement_status si, p1, p2)
      | Except.error e, _ => Except.error e
      | _, Except.error e => Except.error e
    | none => Except.error Err.valueError
  | _ => Except.error Err.valueError

/-- Embedding of `Tpg26x._read_gauge`: command, handshake, enquiry, one
data line, measurement parse. -/
def read_gauge (st : SerialState) (mnemonic : Mnemonics) :
    R (Option MeasurementStatus × ℚ) :=
  match send_command st mnemonic [] with
  | R.err e st => R.err e st
  | R.ok _ st =>
    let st := enquiry st
    match readline st with
    | R.err e st => R.err e st
    | R.ok data st =>
      match parse_measurement data with
      | Except.ok r => R.ok r st
      | Except.error e => R.err e st

/-- Embedding of `Tpg26x.read_gauge1`. -/
def read_gauge1 (st : SerialState) : R (Option MeasurementStatus × ℚ) :=
  read_gauge st Mnemonics.PR1

/-- Embedding of `Tpg26x.read_gauge2`. -/
def read_gauge2 (st : SerialState) : R (Option MeasurementStatus × ℚ) :=
  read_gauge st Mnemonics.PR2

/-- The tri-state signal encoding inside `Tpg26x._turn_on_off`:
`None` (leave unchanged) maps to `b"0"`, `True` (switch on) to `b"1"`,
`False` (switch off) to `b"2"`. -/
def signalOf : Option Bool → List Nat
  | none => [48]
  | some true => [49]
  | some false => [50]

/-- Embedding of `Tpg26x._turn_on_off`: send `SEN` with the two signal
bytes, enquire, read the echoed pair, and raise `IOError` when either
echoed field differs from the signal sent for that channel. -/
def turn_on_off (st : SerialState) (gauge1 gauge2 : Option Bool) : R Unit :=
  let signal1 := signalOf gauge1
  let signal2 := signalOf gauge2
  match send_command st Mnemonics.SEN [signal1, signal2] with
  | R.err e st => R.err e st
  | R.ok _ st =>
    let st := enquiry st
    match readline st with
    | R.err e st => R.err e st
    | R.ok data st =>
      match splitOnByte 44 data with
      | [status1, status2] =>
        if status1 ≠ signal1 || status2 ≠ signal2 then
          R.err (Err.cannotTurnOnOff status1 status2) st
        else R.ok () st
      | _ => R.err Err.valueError st

/-- Embedding of `Tpg26x.turn_on_gauge1`: `_turn_on_off(True, None)`. -/
def turn_on_gauge1 (st : SerialState) : R Unit :=
  turn_on_off st (some true) none

/-- Embedding of `Tpg26x.turn_on_gauge2`: `_turn_on_off(None, True)`. -/
def turn_on_gauge2 (st : SerialState) : R Unit :=
  turn_on_off st none (some true)

/-- Embedding of `Tpg26x.turn_on_both`: the source calls
`self._turn_on(True, True)`, but the class defines no method named
`_turn_on`, so the call raises `AttributeError` before any transport
I/O. -/
def turn_on_both (st : SerialState) : R Unit :=
  R.err (Err.attributeError "_turn_on") st

/-- Embedding of `Tpg26x.turn_off_gauge1`: the source calls
`self._turn_off(False, None)`, but the class defines no method named
`_turn_off`, so the call raises `AttributeError` before any transport
I/O. -/
def turn_off_gauge1 (st : SerialState) : R Unit :=
  R.err (Err.attributeError "_turn_off") st

/-- Embedding of `Tpg26x.turn_off_gauge2`: the source calls
`self._turn_off(None, False)`; no such method exists, so
`AttributeError`. -/
def turn_off_gauge2 (st : SerialState) : R Unit :=
  R.err (Err.attributeError "_turn_off") st

/-- Embedding of `Tpg26x.turn_off_both`: the source calls
`self._turn_off(False, False)`; no such method exists, so
`AttributeError`. -/
def turn_off_both (st : SerialState) : R Unit :=
  R.err (Err.attributeError "_turn_off") st

/-- Embedding of `Tpg26x._change_channel`: the guard
`channel not in (b"0", b"1")` never fires for a `GaugeType` member; send
`SCT` with the channel byte, enquire, and map the reply to `GAUGE1`
exactly when it is `b"0"`, to `GAUGE2` otherwise. -/
def change_channel (st : SerialState) (channel : GaugeType) : R GaugeType :=
  match send_command st Mnemonics.SCT [channel.value] with
  | R.err e st => R.err e st
  | R.ok _ st =>
    let st := enquiry st
    match readline st with
    | R.err e st => R.err e st
    | R.ok data st =>
      R.ok (if data = [48] then GaugeType.GAUGE1 else GaugeType.GAUGE2) st

/-- Embedding of `Tpg26x.change_channel_1`: raise `IOError` when the
channel coming back is not `GAUGE1`. -/
def change_channel_1 (st : SerialState) : R Unit :=
  match change_channel st GaugeType.GAUGE1 with
  | R.err e st => R.err e st
  | R.ok c st =>
    if c ≠ GaugeType.GAUGE1 then R.err Err.channelNotChanged st else R.ok () st

/-- Embedding of `Tpg26x.change_channel_2`: raise `IOError` when the
channel coming back is not `GAUGE2`. -/
def change_channel_2 (st : SerialState) : R Unit :=
  match change_channel st GaugeType.GAUGE2 with
  | R.err e st => R.err e st
  | R.ok c st =>
    if c ≠ GaugeType.GAUGE2 then R.err Err.channelNotChanged st else R.ok () st

/-- Embedding of `Tpg26x.get_error_status`: send `ERR`, enquire, read
one line, scan the `ErrorStatus` catalog; unlike the measurement and
reset parsers this one does raise `IOError` when the scan misses. -/
def get_error_status (st : SerialState) : R ErrorStatus :=
  match send_command st Mnemonics.ERR [] with
  | R.err e st => R.err e st
  | R.ok _ st =>
    let st := enquiry st
    match readline st with
    | R.err e st => R.err e st
    | R.ok data st =>
      match search_error_status data with
      | some status => R.ok status st
      | none => R.err (Err.unexpectedBinary data) st

/-- Embedding of `Tpg26x.reset`: send `RES` with argument `b"1"`,
enquire, read one line, split on commas, and look each field up in the
reset-cause catalog; fields missing from the catalog yield `none`
entries — the source never raises for them. -/
def reset (st : SerialState) : R (List (Option ResetErrorStatus)) :=
  match send_command st Mnemonics.RES [bstr "1"] with
  | R.err e st => R.err e st
  | R.ok _ st =>
    let st := enquiry st
    match readline st with
    | R.err e st => R.err e st
    | R.ok data st =>
      R.ok ((splitOnByte 44 data).map search_reset_error_status) st

/-- The class-level state that `Tpg26x._get_gauge_ids` mutates: the
`func` slots of the two `cached_property` descriptors `id_gauge1` and
`id_gauge2` on the class `Tpg26x` itself.  `none` means the descriptor
still holds its original function; `some v` means it was rebound to
`lambda _: v` (where `v` is the possibly-`None` lookup result). -/
structure ClassState where
  func1 : Option (Option GaugeID)
  func2 : Option (Option GaugeID)
deriving DecidableEq

/-- One `Tpg26x` instance (one Device Session): the entries its
`__dict__` holds for the two cached properties, and its own serial
transport. -/
structure Instance where
  cache1 : Option (Option GaugeID)
  cache2 : Option (Option GaugeID)
  serial : SerialState
deriving DecidableEq

/-- Outcome of an operation that may touch both the class-level
descriptor state and the instance. -/
inductive GRes (α : Type)
  | ok (a : α) (cs : ClassState) (inst : Instance)
  | err (e : Err) (cs : ClassState) (inst : Instance)
deriving DecidableEq

/-- Embedding of `Tpg26x._get_gauge_ids`: send `TID`, enquire, read one
line, split on the comma into exactly two fields (tuple unpacking raises
`ValueError` otherwise), look each up — `None` results are kept, not
rejected — then rebind both class-level `cached_property.func` slots to
constant functions returning the looked-up values. -/
def get_gauge_ids (cs : ClassState) (inst : Instance) :
    GRes (Option GaugeID × Option GaugeID) :=
  match send_command inst.serial Mnemonics.TID [] with
  | R.err e st => GRes.err e cs { cache1 := inst.cache1, cache2 := inst.cache2, serial := st }
  | R.ok _ st =>
    let st := enquiry st
    match readline st with
    | R.err e st => GRes.err e cs { cache1 := inst.cache1, cache2 := inst.cache2, serial := st }
    | R.ok data st =>
      match (splitOnByte 44 data).map search_gauge_id with
      | [id_gauge1, id_gauge2] =>
        GRes.ok (id_gauge1, id_gauge2)
          { func1 := some id_gauge1, func2 := some id_gauge2 }
          { cache1 := inst.cache1, cache2 := inst.cache2, serial := st }
      | _ => GRes.err Err.valueError cs { cache1 := inst.cache1, cache2 := inst.cache2, serial := st }

/-- Embedding of reading the `id_gauge1` cached property
(`functools.cached_property.__get__`): an instance-dict hit returns the
stored value with no device traffic; otherwise the descriptor calls its
current `func` — either the rebound constant (no device traffic) or the
original `_get_gauge_ids` — and stores the result in the instance
dict. -/
def access_id_gauge1 (cs : ClassState) (inst : Instance) :
    GRes (Option GaugeID) :=
  match inst.cache1 with
  | some v => GRes.ok v cs inst
  | none =>
    match cs.func1 with
    | some v =>
      GRes.ok v cs { cache1 := some v, cache2 := inst.cache2, serial := inst.serial }
    | none =>
      match get_gauge_ids cs inst with
      | GRes.ok ids cs inst =>
        GRes.ok ids.1 cs { cache1 := some ids.1, cache2 := inst.cache2, serial := inst.serial }
      | GRes.err e cs inst => GRes.err e cs inst

/-- Embedding of reading the `id_gauge2` cached property; symmetric to
`access_id_gauge1`. -/
def access_id_gauge2 (cs : ClassState) (inst : Instance) :
    GRes (Option GaugeID) :=
  match inst.cache2 with
  | some v => GRes.ok v cs inst
  | none =>
    match cs.func2 with
    | some v =>
      GRes.ok v cs { cache1 := inst.cache1, cache2 := some v, serial := inst.serial }
    | none =>
      match get_gauge_ids cs inst with
      | GRes.ok ids cs inst =>
        GRes.ok ids.2 cs { cache1 := inst.cache1, cache2 := some ids.2, serial := inst.serial }
      | GRes.err e cs inst => GRes.err e cs inst

/-- A fresh serial state with a given incoming script and no writes. -/
def mkSt (script : List (List Nat)) : SerialState :=
  { written := [], incoming := script }

/-- A raw ACK handshake line as the device sends it. -/
def ackLine : List Nat := [ACK, CR, LF]

/-- Decoding a line that is some content followed by the terminator
strips exactly the terminator. -/
theorem decode_line_append (content : List Nat) :
    decode_line (content ++ NEWLINE) = Except.ok content := by
  simp [decode_line, List.length_append, show NEWLINE.length = 2 from rfl,
    List.drop_left, List.take_left]

/-- Reading from a script whose next line is well terminated yields its
content and consumes the line. -/
theorem readline_cons (w : List (List Nat)) (content : List Nat)
    (rest : List (List Nat)) :
    readline { written := w, incoming := (content ++ NEWLINE) :: rest } =
      R.ok content { written := w, incoming := rest } := by
  simp [readline, decode_line_append]

/-- Running `send_command` against a script whose next line is
`content ++ CR LF`: the frame is written, then ACK content succeeds,
NACK content raises the mnemonic-carrying error, and anything else
raises the raw-bytes error. -/
theorem send_command_run (w : List (List Nat)) (content : List Nat)
    (rest : List (List Nat)) (m : Mnemonics) (args : List (List Nat)) :
    send_command { written := w, incoming := (content ++ NEWLINE) :: rest } m args =
      (if content = [ACK] then
        R.ok () { written := w ++ [format_frame (m.value :: args)], incoming := rest }
      else if content = [NACK] then
        R.err (Err.forbidden m.value)
          { written := w ++ [format_frame (m.value :: args)], incoming := rest }
      else
        R.err (Err.unexpectedData content)
          { written := w ++ [format_frame (m.value :: args)], incoming := rest }) := by
  have hr := readline_cons (w ++ [format_frame (m.value :: args)]) content rest
  by_cases h1 : content = [ACK]
  · subst h1
    simp only [send_command, write_frame, serial_write, hr, handle_ack]
    simp
  · by_cases h2 : content = [NACK]
    · subst h2
      simp only [send_command, write_frame, serial_write, hr, handle_ack]
      simp [ACK, NACK]
    · simp only [send_command, write_frame, serial_write, hr, handle_ack]
      simp [h1, h2]

/-- Splitting a list free of the separator yields the list itself as the
single field. -/
theorem splitOnByte_not_mem (sep : Nat) (a : List Nat) (h : sep ∉ a) :
    splitOnByte sep a = [a] := by
  induction a with
  | nil => rfl
  | cons x t ih =>
    have hx : ¬x = sep := fun hx => h (hx ▸ List.mem_cons_self x t)
    have ht : sep ∉ t := fun m => h (List.mem_cons_of_mem _ m)
    simp [splitOnByte, hx, ih ht]

/-- Splitting `a ++ sep :: b` where `a` is separator-free peels off `a`
as the first field. -/
theorem splitOnByte_append_sep (sep : Nat) (a b : List Nat) (h : sep ∉ a) :
    splitOnByte sep (a ++ sep :: b) = a :: splitOnByte sep b := by
  induction a with
  | nil => simp [splitOnByte]
  | cons x t ih =>
    have hx : ¬x = sep := fun hx => h (hx ▸ List.mem_cons_self x t)
    have ht : sep ∉ t := fun m => h (List.mem_cons_of_mem _ m)
    simp [splitOnByte, hx, ih ht]

/-- C7: for every mnemonic and argument sequence, the encoder emits the
comma-joined payload (mnemonic first, then each argument, single commas,
no trailing comma, the bare mnemonic still terminated) followed by CR LF,
and decoding that frame strips exactly the terminator, returning the
original payload. -/
theorem encode_decode_round_trip :
    ∀ (m : Mnemonics) (args : List (List Nat)),
      format_frame (m.value :: args) = joinComma (m.value :: args) ++ [CR, LF] ∧
      decode_line (format_frame (m.value :: args)) =
        Except.ok (joinComma (m.value :: args)) ∧
      joinComma [m.value] = m.value ∧
      (∀ (a : List Nat) (rest : List (List Nat)),
        joinComma (m.value :: a :: rest) = m.value ++ 44 :: joinComma (a :: rest)) :=
  fun m args =>
    ⟨rfl, decode_line_append (joinComma (m.value :: args)), rfl, fun _ _ => rfl⟩

/-- C6: after writing the command frame, `send_command` succeeds exactly
when the decoded handshake line is the single ACK byte, raises the
mnemonic-carrying rejection on the single NACK byte, and raises the
raw-bytes error on anything else; in particular a NACK after mnemonic
`COM` raises the rejection carrying `COM`. -/
theorem send_command_handshake :
    (∀ (m : Mnemonics) (args : List (List Nat)) (content : List Nat)
        (rest : List (List Nat)),
      send_command (mkSt ((content ++ NEWLINE) :: rest)) m args =
        (if content = [ACK] then
          R.ok () { written := [format_frame (m.value :: args)], incoming := rest }
        else if content = [NACK] then
          R.err (Err.forbidden m.value)
            { written := [format_frame (m.value :: args)], incoming := rest }
        else
          R.err (Err.unexpectedData content)
            { written := [format_frame (m.value :: args)], incoming := rest })) ∧
    send_command (mkSt [[NACK] ++ NEWLINE]) Mnemonics.COM [] =
      R.err (Err.forbidden (bstr "COM"))
        { written := [bstr "COM" ++ NEWLINE], incoming := [] } := by
  constructor
  · intro m args content rest
    have h := send_command_run [] content rest m args
    simpa [mkSt] using h
  · decide

/-- C8: `parse_pressure` splits on the single byte `E`, parses mantissa
as a decimal float and exponent as a signed integer, returns
`mantissa * 10 ^ exponent` (`b"1.0E-3"` gives `0.001`, `b"9.9E9"` gives
`9.9e9`), and raises when the split does not give exactly two parts or
either part fails numeric parsing (`b"abcE1"`). -/
theorem parse_pressure_spec :
    parse_pressure (bstr "1.0E-3") = Except.ok ((1 : ℚ) / 1000) ∧
    parse_pressure (bstr "9.9E9") = Except.ok ((9900000000 : ℚ)) ∧
    parse_pressure (bstr "abcE1") = Except.error Err.valueError ∧
    (∀ m e : List Nat, 69 ∉ m → 69 ∉ e →
      parse_pressure (m ++ 69 :: e) =
        (match parse_float m, parse_int e with
         | some mq, some ei => Except.ok (mq * pow10 ei)
         | _, _ => Except.error Err.valueError)) ∧
    (∀ raw : List Nat, (splitOnByte 69 raw).length ≠ 2 →
      parse_pressure raw = Except.error Err.valueError) := by
  refine ⟨?_, ?_, ?_, ?_, ?_⟩
  · simp [parse_pressure, parse_float, parse_float_unsigned, parse_int,
      splitOnByte, bstr, digitsToNat, isDigitByte, pow10]
  · simp [parse_pressure, parse_float, parse_float_unsigned, parse_int,
      splitOnByte, bstr, digitsToNat, isDigitByte, pow10]
    norm_num
  · simp [parse_pressure, parse_float, parse_float_unsigned, parse_int,
      splitOnByte, bstr, digitsToNat, isDigitByte]
  · intro m e hm he
    have hs : splitOnByte 69 (m ++ 69 :: e) = [m, e] := by
      rw [splitOnByte_append_sep 69 m e hm, splitOnByte_not_mem 69 e he]
    simp only [parse_pressure, hs]
  · intro raw h
    rcases hs : splitOnByte 69 raw with _ | ⟨m, _ | ⟨e, _ | ⟨x, t⟩⟩⟩
    · simp [parse_pressure, hs]
    · simp [parse_pressure, hs]
    · simp [hs] at h
    · simp [parse_pressure, hs]

/-- Witness for `parse_pressure_spec` at concrete inputs: the general
mantissa-exponent equation at `b"1.0" / b"-3"`, and the wrong-field-count
failure at `b"abc"`. -/
theorem parse_pressure_spec_witness :
    parse_pressure (bstr "1.0" ++ 69 :: bstr "-3") = Except.ok ((1 : ℚ) / 1000) ∧
    parse_pressure (bstr "abc") = Except.error Err.valueError := by
  constructor
  · have h := parse_pressure_spec.2.2.2.1 (bstr "1.0") (bstr "-3")
      (by decide) (by decide)
    refine h.trans ?_
    simp [parse_float, parse_float_unsigned, parse_int, splitOnByte, bstr,
      digitsToNat, isDigitByte, pow10]
  · exact parse_pressure_spec.2.2.2.2 (bstr "abc") (by decide)

/-- C1 (what the code actually does): an enumerated field outside its
catalog does NOT make the parse fail.  `parse_measurement` on status `9`
returns a `none` status together with the parsed pressure, and the
reset-cause parse maps the unknown field `b"8"` to a `none` entry; no
error is raised in either case. -/
theorem unknown_catalog_values_pass_silently :
    parse_measurement (bstr "9,1.0E-3") = Except.ok (none, (1 : ℚ) / 1000) ∧
    search_measurement_status 9 = none ∧
    reset (mkSt [[ACK] ++ NEWLINE, bstr "0,8" ++ NEWLINE]) =
      R.ok [some ResetErrorStatus.NO_ERROR, none]
        { written := [bstr "RES,1" ++ NEWLINE, [ENQ]], incoming := [] } ∧
    search_reset_error_status (bstr "8") = none := by
  refine ⟨?_, by decide, ?_, by decide⟩
  · simp [parse_measurement, parse_pressure, parse_float, parse_float_unsigned,
      parse_int, splitOnByte, bstr, digitsToNat, isDigitByte, pow10,
      search_measurement_status, MeasurementStatus.members, List.find?,
      MeasurementStatus.value, Except.map]
  · decide

/-- Running `read_gauge` against an ACK line and then a data line whose
content parses as a measurement: the command frame and the enquiry byte
are written and the parsed measurement is returned. -/
theorem read_gauge_run (m : Mnemonics) (data : List Nat) (rest : List (List Nat))
    (r : Option MeasurementStatus × ℚ) (hp : parse_measurement data = Except.ok r) :
    read_gauge (mkSt (([ACK] ++ NEWLINE) :: (data ++ NEWLINE) :: rest)) m =
      R.ok r { written := [format_frame [m.value], [ENQ]], incoming := rest } := by
  have h := (send_command_run [] [ACK] ((data ++ NEWLINE) :: rest) m []).trans
    (if_pos rfl)
  have hr := readline_cons (([] ++ [format_frame [m.value]]) ++ [[ENQ]]) data rest
  simp only [read_gauge, mkSt, h, enquiry, serial_write, hr, hp]
  simp

/-- C9: reading gauge 1 writes exactly the frame `b"PR1\r\n"`, then after
the ACK line writes the bare enquiry byte `b"\x05"`, reads one data line,
and for `b"0,1.0E-3\r\n"` returns `(OK, 0.001)`. -/
theorem read_gauge1_scenario :
    read_gauge1 (mkSt [ackLine, bstr "0,1.0E-3" ++ NEWLINE]) =
      R.ok (some MeasurementStatus.OK, (1 : ℚ) / 1000)
        { written := [bstr "PR1" ++ NEWLINE, [ENQ]], incoming := [] } := by
  have hp : parse_measurement (bstr "0,1.0E-3") =
      Except.ok (some MeasurementStatus.OK, (1 : ℚ) / 1000) := by
    simp [parse_measurement, parse_pressure, parse_float, parse_float_unsigned,
      parse_int, splitOnByte, bstr, digitsToNat, isDigitByte, pow10,
      search_measurement_status, MeasurementStatus.members, List.find?,
      MeasurementStatus.value, Except.map]
  have hrun := read_gauge_run Mnemonics.PR1 (bstr "0,1.0E-3") []
    (some MeasurementStatus.OK, (1 : ℚ) / 1000) hp
  exact Eq.trans rfl (hrun.trans rfl)

/-- Running `change_channel` against an ACK line and then an echoed data
line: the `SCT` frame and the enquiry byte are written, and the reply is
mapped to `GAUGE1` exactly when it is `b"0"`, to `GAUGE2` otherwise. -/
theorem change_channel_run (channel : GaugeType) (data : List Nat)
    (rest : List (List Nat)) :
    change_channel (mkSt (([ACK] ++ NEWLINE) :: (data ++ NEWLINE) :: rest)) channel =
      R.ok (if data = [48] then GaugeType.GAUGE1 else GaugeType.GAUGE2)
        { written := [format_frame [Mnemonics.SCT.value, channel.value], [ENQ]],
          incoming := rest } := by
  have h := (send_command_run [] [ACK] ((data ++ NEWLINE) :: rest) Mnemonics.SCT
    [channel.value]).trans (if_pos rfl)
  have hr := readline_cons
    (([] ++ [format_frame [Mnemonics.SCT.value, channel.value]]) ++ [[ENQ]]) data rest
  simp only [change_channel, mkSt, h, enquiry, serial_write, hr]
  simp

/-- C5: `select_channel` sends `SCT` with the requested channel byte
(`b"0"` for channel 1, `b"1"` for channel 2), enquires, maps the echoed
reply byte back to a channel (`b"0"` to gauge 1, anything else to
gauge 2), and the wrapper raises the channel-not-changed error exactly
when the returned channel differs from the requested one — for both
requests and every reply. -/
theorem select_channel_echo :
    ∀ data : List Nat,
      format_frame [Mnemonics.SCT.value, GaugeType.GAUGE1.value] =
        bstr "SCT,0" ++ NEWLINE ∧
      format_frame [Mnemonics.SCT.value, GaugeType.GAUGE2.value] =
        bstr "SCT,1" ++ NEWLINE ∧
      (change_channel (mkSt [[ACK] ++ NEWLINE, data ++ NEWLINE]) GaugeType.GAUGE1 =
        R.ok (if data = [48] then GaugeType.GAUGE1 else GaugeType.GAUGE2)
          { written := [format_frame [Mnemonics.SCT.value, GaugeType.GAUGE1.value], [ENQ]],
            incoming := [] }) ∧
      (change_channel (mkSt [[ACK] ++ NEWLINE, data ++ NEWLINE]) GaugeType.GAUGE2 =
        R.ok (if data = [48] then GaugeType.GAUGE1 else GaugeType.GAUGE2)
          { written := [format_frame [Mnemonics.SCT.value, GaugeType.GAUGE2.value], [ENQ]],
            incoming := [] }) ∧
      (change_channel_1 (mkSt [[ACK] ++ NEWLINE, data ++ NEWLINE]) =
        (if (if data = [48] then GaugeType.GAUGE1 else GaugeType.GAUGE2) ≠ GaugeType.GAUGE1
         then R.err Err.channelNotChanged
           { written := [format_frame [Mnemonics.SCT.value, GaugeType.GAUGE1.value], [ENQ]],
             incoming := [] }
         else R.ok ()
           { written := [format_frame [Mnemonics.SCT.value, GaugeType.GAUGE1.value], [ENQ]],
             incoming := [] })) ∧
      (change_channel_2 (mkSt [[ACK] ++ NEWLINE, data ++ NEWLINE]) =
        (if (if data = [48] then GaugeType.GAUGE1 else GaugeType.GAUGE2) ≠ GaugeType.GAUGE2
         then R.err Err.channelNotChanged
           { written := [format_frame [Mnemonics.SCT.value, GaugeType.GAUGE2.value], [ENQ]],
             incoming := [] }
         else R.ok ()
           { written := [format_frame [Mnemonics.SCT.value, GaugeType.GAUGE2.value], [ENQ]],
             incoming := [] })) := by
  intro data
  refine ⟨by decide, by decide, change_channel_run GaugeType.GAUGE1 data [],
    change_channel_run GaugeType.GAUGE2 data [], ?_, ?_⟩
  · by_cases hd : data = [48]
    · subst hd
      decide
    · have hc := change_channel_run GaugeType.GAUGE1 data []
      simp only [change_channel_1, hc]
  · by_cases hd : data = [48]
    · subst hd
      decide
    · have hc := change_channel_run GaugeType.GAUGE2 data []
      simp only [change_channel_2, hc]

/-- C2 (what the code actually does): `_turn_on_off` sends `SEN` with the
tri-state signal bytes and raises the power error exactly when either
echoed field differs from the sent signal, and `turn_on_gauge1` and
`turn_on_gauge2` delegate to it; but `turn_on_both`, `turn_off_gauge1`,
`turn_off_gauge2` and `turn_off_both` call the undefined methods
`_turn_on` and `_turn_off` and so raise `AttributeError` before any
transport I/O.  The spec scenario (request on/unchanged, echo `b"1,2"`)
does fail with the echo-mismatch error. -/
theorem power_set_operations :
    (∀ st : SerialState, turn_on_both st = R.err (Err.attributeError "_turn_on") st) ∧
    (∀ st : SerialState, turn_off_gauge1 st = R.err (Err.attributeError "_turn_off") st) ∧
    (∀ st : SerialState, turn_off_gauge2 st = R.err (Err.attributeError "_turn_off") st) ∧
    (∀ st : SerialState, turn_off_both st = R.err (Err.attributeError "_turn_off") st) ∧
    (∀ st : SerialState, turn_on_gauge1 st = turn_on_off st (some true) none) ∧
    (∀ st : SerialState, turn_on_gauge2 st = turn_on_off st none (some true)) ∧
    (∀ g1 g2 e1 e2 : Option Bool,
      turn_on_off
          (mkSt [[ACK] ++ NEWLINE, (signalOf e1 ++ 44 :: signalOf e2) ++ NEWLINE]) g1 g2 =
        (if signalOf e1 ≠ signalOf g1 ∨ signalOf e2 ≠ signalOf g2 then
          R.err (Err.cannotTurnOnOff (signalOf e1) (signalOf e2))
            { written := [format_frame [Mnemonics.SEN.value, signalOf g1, signalOf g2],
                [ENQ]],
              incoming := [] }
        else
          R.ok ()
            { written := [format_frame [Mnemonics.SEN.value, signalOf g1, signalOf g2],
                [ENQ]],
              incoming := [] })) ∧
    turn_on_off (mkSt [[ACK] ++ NEWLINE, bstr "1,2" ++ NEWLINE]) (some true) none =
      R.err (Err.cannotTurnOnOff (bstr "1") (bstr "2"))
        { written := [bstr "SEN,1,0" ++ NEWLINE, [ENQ]], incoming := [] } := by
  refine ⟨fun st => rfl, fun st => rfl, fun st => rfl, fun st => rfl,
    fun st => rfl, fun st => rfl, ?_, by decide⟩
  decide

/-- C4 (what the code actually does): the TID reply is split on the comma
into two fields and both are looked up in the `GaugeID` catalog; when
both are known the member pair comes back (`b"TPR,CMR"` gives the Pirani
and linear-gauge members), but an unknown field yields a silent `none`
instead of an unknown-gauge-identity error. -/
theorem gauge_ids_lookup :
    get_gauge_ids { func1 := none, func2 := none }
        { cache1 := none, cache2 := none,
          serial := mkSt [[ACK] ++ NEWLINE, bstr "TPR,CMR" ++ NEWLINE] } =
      GRes.ok (some GaugeID.TPR, some GaugeID.CMR)
        { func1 := some (some GaugeID.TPR), func2 := some (some GaugeID.CMR) }
        { cache1 := none, cache2 := none,
          serial := { written := [bstr "TID" ++ NEWLINE, [ENQ]], incoming := [] } } ∧
    get_gauge_ids { func1 := none, func2 := none }
        { cache1 := none, cache2 := none,
          serial := mkSt [[ACK] ++ NEWLINE, bstr "TPR,XYZ" ++ NEWLINE] } =
      GRes.ok (some GaugeID.TPR, none)
        { func1 := some (some GaugeID.TPR), func2 := some none }
        { cache1 := none, cache2 := none,
          serial := { written := [bstr "TID" ++ NEWLINE, [ENQ]], incoming := [] } } ∧
    search_gauge_id (bstr "XYZ") = none ∧
    search_gauge_id (bstr "TPR") = some GaugeID.TPR ∧
    search_gauge_id (bstr "CMR") = some GaugeID.CMR := by
  refine ⟨by decide, by decide, by decide, by decide, by decide⟩

/-- Running `get_error_status` against an ACK line and then a data line:
the `ERR` frame and the enquiry byte are written, a catalog hit is
returned, and a miss raises the raw-bytes error. -/
theorem get_error_status_run (data : List Nat) (rest : List (List Nat)) :
    get_error_status (mkSt (([ACK] ++ NEWLINE) :: (data ++ NEWLINE) :: rest)) =
      (match search_error_status data with
       | some status => R.ok status
           { written := [format_frame [Mnemonics.ERR.value], [ENQ]], incoming := rest }
       | none => R.err (Err.unexpectedBinary data)
           { written := [format_frame [Mnemonics.ERR.value], [ENQ]], incoming := rest }) := by
  have h := (send_command_run [] [ACK] ((data ++ NEWLINE) :: rest) Mnemonics.ERR []).trans
    (if_pos rfl)
  have hr := readline_cons (([] ++ [format_frame [Mnemonics.ERR.value]]) ++ [[ENQ]])
    data rest
  simp only [get_error_status, mkSt, h, enquiry, serial_write, hr]
  cases hs : search_error_status data <;> simp [hs]

/-- C10: `get_error_status` matches the enquired reply exactly against
the 4-digit code catalog and raises for every reply outside it; the
catalog gives the code `b"0000"` to both the no-error and the
generic-error members, and a `b"0000"` reply is returned as the one
canonical member `NO_ERROR` rather than dropped or rejected. -/
theorem get_error_status_catalog :
    (∀ data : List Nat,
      get_error_status (mkSt [[ACK] ++ NEWLINE, data ++ NEWLINE]) =
        (match search_error_status data with
         | some status => R.ok status
             { written := [format_frame [Mnemonics.ERR.value], [ENQ]], incoming := [] }
         | none => R.err (Err.unexpectedBinary data)
             { written := [format_frame [Mnemonics.ERR.value], [ENQ]], incoming := [] })) ∧
    (∀ data : List Nat, (search_error_status data).isSome = true ↔
      data = bstr "0000" ∨ data = bstr "0100" ∨ data = bstr "0010" ∨
        data = bstr "0001") ∧
    search_error_status (bstr "0000") = some ErrorStatus.NO_ERROR ∧
    ErrorStatus.NO_ERROR.value = bstr "0000" ∧
    ErrorStatus.ERROR.value = bstr "0000" := by
  refine ⟨fun data => get_error_status_run data [], ?_, by decide, by decide, by decide⟩
  intro data
  constructor
  · intro hsome
    rcases Option.isSome_iff_exists.mp hsome with ⟨st, hst⟩
    simp only [search_error_status] at hst
    have hval := List.find?_some hst
    cases st <;> simp [ErrorStatus.value] at hval <;> simp [← hval]
  · rintro (h | h | h | h) <;> subst h <;> decide

/-- C3 counterexample: the identity cache is written onto the class, not
the session.  Session 1 (device reporting `TPR,CMR`) performs one TID
cycle and rebinds the class-level property functions; a second, fresh
session whose own device would report `PKR,PBR` then reads `id_gauge1`
and gets session 1 value `TPR` back with zero transport writes — its
device is never queried, so the cache outlives the session that filled
it. -/
theorem gauge_id_cache_outlives_session :
    access_id_gauge1 { func1 := none, func2 := none }
        { cache1 := none, cache2 := none,
          serial := mkSt [[ACK] ++ NEWLINE, bstr "TPR,CMR" ++ NEWLINE] } =
      GRes.ok (some GaugeID.TPR)
        { func1 := some (some GaugeID.TPR), func2 := some (some GaugeID.CMR) }
        { cache1 := some (some GaugeID.TPR), cache2 := none,
          serial := { written := [bstr "TID" ++ NEWLINE, [ENQ]], incoming := [] } } ∧
    access_id_gauge1 { func1 := some (some GaugeID.TPR), func2 := some (some GaugeID.CMR) }
        { cache1 := none, cache2 := none,
          serial := mkSt [[ACK] ++ NEWLINE, bstr "PKR,PBR" ++ NEWLINE] } =
      GRes.ok (some GaugeID.TPR)
        { func1 := some (some GaugeID.TPR), func2 := some (some GaugeID.CMR) }
        { cache1 := some (some GaugeID.TPR), cache2 := none,
          serial := mkSt [[ACK] ++ NEWLINE, bstr "PKR,PBR" ++ NEWLINE] } := by
  refine ⟨by decide, by decide⟩

/-- C3 amended: within one session identities are fetched at most once —
the first access runs exactly one TID command/enquiry cycle and caches
both identities, and any access finding the instance cache or the
rebound class function set performs zero transport writes; but the cache
lives on the class, so any instance (a later session included) whose
class state holds rebound functions also gets the stored values with
zero transport writes instead of querying its own device. -/
theorem gauge_id_fetch_once :
    (access_id_gauge1 { func1 := none, func2 := none }
        { cache1 := none, cache2 := none,
          serial := mkSt [[ACK] ++ NEWLINE, bstr "TPR,CMR" ++ NEWLINE] } =
      GRes.ok (some GaugeID.TPR)
        { func1 := some (some GaugeID.TPR), func2 := some (some GaugeID.CMR) }
        { cache1 := some (some GaugeID.TPR), cache2 := none,
          serial := { written := [bstr "TID" ++ NEWLINE, [ENQ]], incoming := [] } }) ∧
    (∀ (cs : ClassState) (inst : Instance) (v : Option GaugeID),
      inst.cache1 = some v → access_id_gauge1 cs inst = GRes.ok v cs inst) ∧
    (∀ (cs : ClassState) (inst : Instance) (v : Option GaugeID),
      inst.cache2 = some v → access_id_gauge2 cs inst = GRes.ok v cs inst) ∧
    (∀ (cs : ClassState) (inst : Instance) (v : Option GaugeID),
      inst.cache1 = none → cs.func1 = some v →
        access_id_gauge1 cs inst =
          GRes.ok v cs
            { cache1 := some v, cache2 := inst.cache2, serial := inst.serial }) ∧
    (∀ (cs : ClassState) (inst : Instance) (v : Option GaugeID),
      inst.cache2 = none → cs.func2 = some v →
        access_id_gauge2 cs inst =
          GRes.ok v cs
            { cache1 := inst.cache1, cache2 := some v, serial := inst.serial }) := by
  refine ⟨by decide, ?_, ?_, ?_, ?_⟩
  · intro cs inst v h
    simp [access_id_gauge1, h]
  · intro cs inst v h
    simp [access_id_gauge2, h]
  · intro cs inst v h1 h2
    simp [access_id_gauge1, h1, h2]
  · intro cs inst v h1 h2
    simp [access_id_gauge2, h1, h2]

/-- Witness for `gauge_id_fetch_once` at concrete inputs: an instance
cache hit returns the stored value untouched, and a fresh instance under
a mutated class state gets the class-stored value with zero writes. -/
theorem gauge_id_fetch_once_witness :
    access_id_gauge1 { func1 := none, func2 := none }
        { cache1 := some (some GaugeID.PKR), cache2 := none, serial := mkSt [] } =
      GRes.ok (some GaugeID.PKR) { func1 := none, func2 := none }
        { cache1 := some (some GaugeID.PKR), cache2 := none, serial := mkSt [] } ∧
    access_id_gauge1 { func1 := some (some GaugeID.TPR), func2 := some (some GaugeID.CMR) }
        { cache1 := none, cache2 := none, serial := mkSt [] } =
      GRes.ok (some GaugeID.TPR)
        { func1 := some (some GaugeID.TPR), func2 := some (some GaugeID.CMR) }
        { cache1 := some (some GaugeID.TPR), cache2 := none, serial := mkSt [] } :=
  ⟨gauge_id_fetch_once.2.1 { func1 := none, func2 := none }
      { cache1 := some (some GaugeID.PKR), cache2 := none, serial := mkSt [] }
      (some GaugeID.PKR) rfl,
   gauge_id_fetch_once.2.2.2.1
      { func1 := some (some GaugeID.TPR), func2 := some (some GaugeID.CMR) }
      { cache1 := none, cache2 := none, serial := mkSt [] }
      (some GaugeID.TPR) rfl rfl⟩

